import Mathlib

/-!
Reference dataset engine: delegate resolution and runtime descriptors.

A shallow embedding of `pkg/ddc/thin/referencedataset/runtime.go`.

The three methods of `ReferenceDatasetEngine` in that file read the cluster
through `e.Client` and write two memo fields of the receiver.  Each method is
embedded as a function from the cluster state seen during the call and the
receiver before the call to a `Ret`: the two Go return values, the receiver
after the call, and the list of cluster reads the call performed, in order.

Calls to `e.Log.Info` are not embedded: they neither read the cluster nor
touch the memo fields.
-/

namespace ReferenceDataset

/-! ## Data model -/

/-- A Go `error` value.  `notFound` stands for the errors on which
`apierrors.IsNotFound` answers true, `failure` for every other error. -/
inductive Err where
  | notFound (resource : String)
  | failure (msg : String)
  deriving DecidableEq, Repr

/-- The type `types.NamespacedName`. -/
structure NamespacedName where
  Name : String
  Namespace : String
  deriving DecidableEq, Repr

/-- Modelled from the spec: the type `datav1alpha1.Mount` is declared outside
`runtime.go`.  Section 3 and scenario A of the specification describe a mount as
a namespaced reference, written `{name, namespace}`. -/
structure Mount where
  name : String
  Namespace : String
  deriving DecidableEq, Repr

/-- Modelled from the spec: the type `datav1alpha1.Dataset` is declared outside
`runtime.go`.  A Dataset declares an ordered list of mounts (`Spec.Mounts`) and
an exclusivity declaration. -/
structure Dataset where
  mounts : List Mount
  exclusive : Bool
  deriving DecidableEq, Repr

/-- The part of `datav1alpha1.ThinRuntime` that `runtime.go` reads:
the object's annotations, `Spec.TieredStore`, `Spec.Fuse.NodeSelector` and
`Status.Mounts`.  `statusMounts = none` is the nil slice. -/
structure ThinRuntime where
  annotations : List (String × String)
  tieredStore : List String
  fuseNodeSelector : List (String × String)
  statusMounts : Option (List Mount)
  deriving DecidableEq, Repr

/-- Fuse placement of a runtime descriptor. -/
structure Fuse where
  global : Bool
  nodeSelector : List (String × String)
  deriving DecidableEq, Repr

/-- Modelled from the spec: the concrete descriptor behind
`base.RuntimeInfoInterface` is declared outside `runtime.go`.  Section 3 lists
its content: name, namespace, runtime type, tiered-store configuration,
metadata, fuse deploy mode and the exclusivity flag. -/
structure RuntimeInfo where
  name : String
  Namespace : String
  runtimeType : String
  tieredStore : List String
  metadataList : List String
  fuse : Fuse
  exclusive : Bool
  deriving DecidableEq, Repr

/-- The type `datav1alpha1.RuntimeStatus`, of which `runtime.go` reads nothing. -/
structure RuntimeStatus where
  phase : String
  deriving DecidableEq, Repr

/-- Modelled from the spec: the Resource Accessor behind `e.Client`
(section 6).  Each read answers with a resource or with an error, `NotFound`
being one of the errors:
`getByKey` for the Dataset and the ThinRuntime kinds, `getRuntimeInfo` by
(name, namespace), and `getStatus` by (runtime type, name, namespace). -/
structure Client where
  getDataset : String → String → Except Err Dataset
  getThinRuntime : String → String → Except Err ThinRuntime
  getRuntimeInfo : String → String → Except Err RuntimeInfo
  getStatus : String → String → String → Except Err RuntimeStatus

/-- One read of the cluster through `e.Client`. -/
inductive Fetch where
  | dataset (name ns : String)
  | thinRuntime (name ns : String)
  | runtimeInfo (name ns : String)
  | runtimeStatus (runtimeType name ns : String)
  deriving DecidableEq, Repr

/-- The functions of package `base` that build a descriptor from a ThinRuntime.
Their bodies are outside `runtime.go` and the specification does not say when
construction fails, so they are parameters of the embedding. -/
structure Base where
  GetMetadataListFromAnnotation : ThinRuntime → List String
  BuildRuntimeInfo :
    String → String → String → List String → List String → Except Err RuntimeInfo

/-- The fields of `ReferenceDatasetEngine` that `runtime.go` uses, the embedded
client apart.  `none` in a memo field is Go's `nil`. -/
structure ReferenceDatasetEngine where
  name : String
  Namespace : String
  runtimeType : String
  runtimeInfo : Option RuntimeInfo
  mountedRuntimeInfo : Option RuntimeInfo
  deriving DecidableEq, Repr

/-- What a method call leaves behind: the first Go return value (`none` is
`nil`), the returned `error`, the receiver after the call, and the cluster reads
performed, oldest first. -/
structure Ret (α : Type) where
  val : Option α
  err : Option Err
  engine : ReferenceDatasetEngine
  fetches : List Fetch
  deriving DecidableEq, Repr

/-! ## Helpers called by `runtime.go` -/

/-- Modelled from the spec: `utils.IgnoreNotFound` is outside `runtime.go`.
It answers `nil` on a NotFound error and the error itself otherwise
(section 7, the NotFound swallow). -/
def IgnoreNotFound : Option Err → Option Err
  | some (Err.notFound _) => none
  | err => err

/-- Modelled from the spec: `utils.GetDataset` is outside `runtime.go`.
It reads the Dataset by (name, namespace) and returns the Go pair
(Dataset or nil, error): a Dataset with a nil error, or nil with the error. -/
def GetDataset (c : Client) (name ns : String) : Option Dataset × Option Err :=
  match c.getDataset name ns with
  | Except.ok dataset => (some dataset, none)
  | Except.error err => (none, some err)

/-- Modelled from the spec: `base.GetMountedDatasetNamespacedName` is outside
`runtime.go`.  Step 4 of section 4.1: the candidate mounts are the declared
mounts, each giving its (name, namespace). -/
def GetMountedDatasetNamespacedName (mounts : List Mount) : List NamespacedName :=
  mounts.map fun m => { Name := m.name, Namespace := m.Namespace }

/-- Modelled from the spec: `base.GetRuntimeInfo` is outside `runtime.go`.
It resolves a (name, namespace) to a descriptor through the accessor. -/
def GetRuntimeInfo (c : Client) (name ns : String) : Except Err RuntimeInfo :=
  c.getRuntimeInfo name ns

/-- Modelled from the spec: `base.GetRuntimeStatus` is outside `runtime.go`.
It reads the live status of a runtime by (type, name, namespace) and returns
the Go pair (status or nil, error). -/
def GetRuntimeStatus (c : Client) (runtimeType name ns : String) :
    Option RuntimeStatus × Option Err :=
  match c.getStatus runtimeType name ns with
  | Except.ok status => (some status, none)
  | Except.error err => (none, some err)

/-- Modelled from the spec: the method `SetupFuseDeployMode` is outside
`runtime.go`.  Step 4 of section 4.2: set the fuse deploy mode and the node
selector used as placement hint. -/
def RuntimeInfo.SetupFuseDeployMode (info : RuntimeInfo) (global : Bool)
    (nodeSelector : List (String × String)) : RuntimeInfo :=
  { info with fuse := { global := global, nodeSelector := nodeSelector } }

/-- Modelled from the spec: the method `SetupWithDataset` is outside
`runtime.go`.  Step 6 of section 4.2: apply the Dataset's exclusivity
declaration to the descriptor. -/
def RuntimeInfo.SetupWithDataset (info : RuntimeInfo) (dataset : Dataset) : RuntimeInfo :=
  { info with exclusive := dataset.exclusive }

/-- The error built by `fmt.Errorf` in `getMountedRuntimeInfo`. -/
def errNotOneMount : Err :=
  Err.failure "ThinEngine with no profile name can only handle dataset only mounting one dataset"

/-! ## The methods of `runtime.go` -/

/-- The method `getRuntime`: read the engine's own ThinRuntime by
(`e.name`, `e.Namespace`); one cluster read. -/
def getRuntime (c : Client) (e : ReferenceDatasetEngine) : Except Err ThinRuntime :=
  c.getThinRuntime e.name e.Namespace

/-- The method `getRuntimeInfo`. -/
def getRuntimeInfo (b : Base) (c : Client) (e : ReferenceDatasetEngine) : Ret RuntimeInfo :=
  if e.runtimeInfo.isSome then
    { val := e.runtimeInfo, err := none, engine := e, fetches := [] }
  else
    match getRuntime c e with
    | Except.error err =>
      { val := e.runtimeInfo, err := some err, engine := e,
        fetches := [Fetch.thinRuntime e.name e.Namespace] }
    | Except.ok runtime =>
      match b.BuildRuntimeInfo e.name e.Namespace e.runtimeType runtime.tieredStore
          (b.GetMetadataListFromAnnotation runtime) with
      | Except.error err =>
        -- `e.runtimeInfo, err = base.BuildRuntimeInfo(...)` stores nil
        { val := none, err := some err, engine := { e with runtimeInfo := none },
          fetches := [Fetch.thinRuntime e.name e.Namespace] }
      | Except.ok built =>
        -- the memo field is assigned here, before the Dataset is read
        let info := built.SetupFuseDeployMode true runtime.fuseNodeSelector
        let e1 := { e with runtimeInfo := some info }
        let fetches := [Fetch.thinRuntime e.name e.Namespace, Fetch.dataset e.name e.Namespace]
        match GetDataset c e.name e.Namespace with
        | (_, some err) =>
          if (IgnoreNotFound (some err)).isNone then
            { val := e1.runtimeInfo, err := none, engine := e1, fetches := fetches }
          else
            { val := e1.runtimeInfo, err := some err, engine := e1, fetches := fetches }
        | (none, none) =>
          -- `SetupWithDataset(nil)`: not reached, `GetDataset` gives a Dataset or an error
          { val := e1.runtimeInfo, err := none, engine := e1, fetches := fetches }
        | (some dataset, none) =>
          let e2 := { e1 with runtimeInfo := some (info.SetupWithDataset dataset) }
          { val := e2.runtimeInfo, err := none, engine := e2, fetches := fetches }

/-- The method `getMountedRuntimeInfo`. -/
def getMountedRuntimeInfo (c : Client) (e : ReferenceDatasetEngine) : Ret RuntimeInfo :=
  if e.mountedRuntimeInfo.isSome then
    { val := e.mountedRuntimeInfo, err := none, engine := e, fetches := [] }
  else
    match GetDataset c e.name e.Namespace with
    | (dataset, err) =>
      if err.isSome && (IgnoreNotFound err).isSome then
        { val := e.mountedRuntimeInfo, err := err, engine := e,
          fetches := [Fetch.dataset e.name e.Namespace] }
      else
        match getRuntime c e with
        | Except.error err =>
          { val := e.mountedRuntimeInfo, err := some err, engine := e,
            fetches := [Fetch.dataset e.name e.Namespace, Fetch.thinRuntime e.name e.Namespace] }
        | Except.ok runtime =>
          let fetches := [Fetch.dataset e.name e.Namespace, Fetch.thinRuntime e.name e.Namespace]
          let candidates : Option (List NamespacedName) :=
            match dataset with
            | some dataset => some (GetMountedDatasetNamespacedName dataset.mounts)
            | none =>
              match runtime.statusMounts with
              | some mounts =>
                if mounts.length != 0 then some (GetMountedDatasetNamespacedName mounts)
                else none
              | none => none
          match candidates with
          | none => { val := none, err := none, engine := e, fetches := fetches }
          | some [namespacedName] =>
            match GetRuntimeInfo c namespacedName.Name namespacedName.Namespace with
            | Except.error err =>
              { val := e.mountedRuntimeInfo, err := some err, engine := e,
                fetches := fetches ++
                  [Fetch.runtimeInfo namespacedName.Name namespacedName.Namespace] }
            | Except.ok mountedRuntimeInfo =>
              { val := some mountedRuntimeInfo, err := none,
                engine := { e with mountedRuntimeInfo := some mountedRuntimeInfo },
                fetches := fetches ++
                  [Fetch.runtimeInfo namespacedName.Name namespacedName.Namespace] }
          | some _ =>
            { val := e.mountedRuntimeInfo, err := some errNotOneMount, engine := e,
              fetches := fetches }

/-- The method `getMountedDatasetRuntimeStatus`. -/
def getMountedDatasetRuntimeStatus (c : Client) (e : ReferenceDatasetEngine) :
    Ret RuntimeStatus :=
  let r := getMountedRuntimeInfo c e
  match r.err with
  | some err => { val := none, err := some err, engine := r.engine, fetches := r.fetches }
  | none =>
    match r.val with
    | none => { val := none, err := none, engine := r.engine, fetches := r.fetches }
    | some mountedRuntimeInfo =>
      let s := GetRuntimeStatus c mountedRuntimeInfo.runtimeType mountedRuntimeInfo.name
        mountedRuntimeInfo.Namespace
      { val := s.1, err := s.2, engine := r.engine,
        fetches := r.fetches ++ [Fetch.runtimeStatus mountedRuntimeInfo.runtimeType
          mountedRuntimeInfo.name mountedRuntimeInfo.Namespace] }

/-! ## Call sequences and concrete inputs -/

/-- The receiver after successive calls of a method on it, one call per
cluster state of the list, oldest first. -/
def engineAfter {α : Type} (method : Client → ReferenceDatasetEngine → Ret α) :
    List Client → ReferenceDatasetEngine → ReferenceDatasetEngine
  | [], e => e
  | c :: cs, e => engineAfter method cs (method c e).engine

/-- An engine for the Dataset `D` of namespace `ns`, both memo fields unset. -/
def engineD : ReferenceDatasetEngine :=
  { name := "D", Namespace := "ns", runtimeType := "thin",
    runtimeInfo := none, mountedRuntimeInfo := none }

/-- The descriptor of the runtime `base` of namespace `ns`, of type `alluxio`. -/
def infoBase : RuntimeInfo :=
  { name := "base", Namespace := "ns", runtimeType := "alluxio", tieredStore := [],
    metadataList := [], fuse := { global := false, nodeSelector := [] },
    exclusive := false }

/-- The mount `{name: base, namespace: ns}`. -/
def mountBase : Mount := { name := "base", Namespace := "ns" }

/-- A ThinRuntime object with the given `Status.Mounts`. -/
def thinRuntimeWith (statusMounts : Option (List Mount)) : ThinRuntime :=
  { annotations := [], tieredStore := ["MEM"], fuseNodeSelector := [("zone", "a")],
    statusMounts := statusMounts }

/-- A cluster state given by the answer to the Dataset read, the answer to the
ThinRuntime read and the answer to every runtime-info lookup; the status of
every runtime is `Ready`. -/
def clusterOf (dataset : Except Err Dataset) (runtime : Except Err ThinRuntime)
    (info : Except Err RuntimeInfo) : Client :=
  { getDataset := fun _ _ => dataset
    getThinRuntime := fun _ _ => runtime
    getRuntimeInfo := fun _ _ => info
    getStatus := fun _ _ _ => Except.ok { phase := "Ready" } }

/-- A builder that seeds the descriptor with its arguments and never fails. -/
def baseOk : Base :=
  { GetMetadataListFromAnnotation := fun runtime => runtime.annotations.map Prod.fst
    BuildRuntimeInfo := fun name ns runtimeType tieredStore metadataList =>
      Except.ok { name := name, Namespace := ns, runtimeType := runtimeType,
                  tieredStore := tieredStore, metadataList := metadataList,
                  fuse := { global := false, nodeSelector := [] }, exclusive := false } }

/-- The own descriptor of the engine `D` as `baseOk` builds it from
`thinRuntimeWith`, after the fuse step and before the Dataset step. -/
def infoD : RuntimeInfo :=
  { name := "D", Namespace := "ns", runtimeType := "thin", tieredStore := ["MEM"],
    metadataList := [], fuse := { global := true, nodeSelector := [("zone", "a")] },
    exclusive := false }

/-! ## Delegate resolution: `getMountedRuntimeInfo` -/

/-- C1. With no memoized delegate, an existing Dataset that declares exactly one
mount, a successful ThinRuntime read and a successful runtime-info lookup for
that mount's (name, namespace): the call returns the looked-up descriptor with a
nil error, stores it in `mountedRuntimeInfo`, and has read the Dataset, the
ThinRuntime and the descriptor of exactly that (name, namespace). -/
theorem getMountedRuntimeInfo_dataset_one_mount (c : Client) (e : ReferenceDatasetEngine)
    (dataset : Dataset) (runtime : ThinRuntime) (m : Mount) (info : RuntimeInfo)
    (hmemo : e.mountedRuntimeInfo = none)
    (hdataset : c.getDataset e.name e.Namespace = Except.ok dataset)
    (hruntime : c.getThinRuntime e.name e.Namespace = Except.ok runtime)
    (hmounts : dataset.mounts = [m])
    (hinfo : c.getRuntimeInfo m.name m.Namespace = Except.ok info) :
    getMountedRuntimeInfo c e =
      { val := some info, err := none,
        engine := { e with mountedRuntimeInfo := some info },
        fetches := [Fetch.dataset e.name e.Namespace, Fetch.thinRuntime e.name e.Namespace,
                    Fetch.runtimeInfo m.name m.Namespace] } := by
  simp [getMountedRuntimeInfo, hmemo, GetDataset, hdataset, IgnoreNotFound, getRuntime,
    hruntime, hmounts, GetMountedDatasetNamespacedName, GetRuntimeInfo, hinfo]

/-- Scenario A of the specification, an instance of C1: the Dataset `D` of `ns`
mounts `base` of `ns`, whose runtime is of type `alluxio`. -/
theorem getMountedRuntimeInfo_dataset_one_mount_witness :
    getMountedRuntimeInfo
        (clusterOf (Except.ok { mounts := [mountBase], exclusive := false })
          (Except.ok (thinRuntimeWith none)) (Except.ok infoBase)) engineD =
      { val := some infoBase, err := none,
        engine := { engineD with mountedRuntimeInfo := some infoBase },
        fetches := [Fetch.dataset "D" "ns", Fetch.thinRuntime "D" "ns",
                    Fetch.runtimeInfo "base" "ns"] } :=
  getMountedRuntimeInfo_dataset_one_mount _ engineD
    { mounts := [mountBase], exclusive := false } (thinRuntimeWith none) mountBase infoBase
    rfl rfl rfl rfl rfl

/-- C2. With no memoized delegate, an existing Dataset and a successful
ThinRuntime read: when the Dataset declares zero mounts or at least two, the
call returns a nil descriptor with the fixed configuration error, reads only the
Dataset and the ThinRuntime (no runtime-info lookup), and leaves the receiver,
hence the memo field, as it was.  The ThinRuntime, and so its `Status.Mounts`,
is arbitrary. -/
theorem getMountedRuntimeInfo_dataset_not_one_mount (c : Client) (e : ReferenceDatasetEngine)
    (dataset : Dataset) (runtime : ThinRuntime)
    (hmemo : e.mountedRuntimeInfo = none)
    (hdataset : c.getDataset e.name e.Namespace = Except.ok dataset)
    (hruntime : c.getThinRuntime e.name e.Namespace = Except.ok runtime)
    (hmounts : dataset.mounts.length = 0 ∨ 2 ≤ dataset.mounts.length) :
    getMountedRuntimeInfo c e =
      { val := none, err := some errNotOneMount, engine := e,
        fetches := [Fetch.dataset e.name e.Namespace,
                    Fetch.thinRuntime e.name e.Namespace] } := by
  have key : ∀ ms : List Mount, (ms.length = 0 ∨ 2 ≤ ms.length) →
      dataset.mounts = ms → getMountedRuntimeInfo c e =
        { val := none, err := some errNotOneMount, engine := e,
          fetches := [Fetch.dataset e.name e.Namespace,
                      Fetch.thinRuntime e.name e.Namespace] } := by
    intro ms hlen hms
    match ms, hlen with
    | [], _ =>
      simp [getMountedRuntimeInfo, hmemo, GetDataset, hdataset, IgnoreNotFound, getRuntime,
        hruntime, hms, GetMountedDatasetNamespacedName]
    | [_], h => simp at h
    | _ :: _ :: _, _ =>
      simp [getMountedRuntimeInfo, hmemo, GetDataset, hdataset, IgnoreNotFound, getRuntime,
        hruntime, hms, GetMountedDatasetNamespacedName]
  exact key dataset.mounts hmounts rfl

/-- Scenario B of the specification, an instance of C2: the Dataset mounts two
entries while the ThinRuntime's `Status.Mounts` holds a single one. -/
theorem getMountedRuntimeInfo_dataset_not_one_mount_witness :
    getMountedRuntimeInfo
        (clusterOf (Except.ok { mounts := [mountBase, mountBase], exclusive := false })
          (Except.ok (thinRuntimeWith (some [mountBase]))) (Except.ok infoBase)) engineD =
      { val := none, err := some errNotOneMount, engine := engineD,
        fetches := [Fetch.dataset "D" "ns", Fetch.thinRuntime "D" "ns"] } :=
  getMountedRuntimeInfo_dataset_not_one_mount _ engineD
    { mounts := [mountBase, mountBase], exclusive := false }
    (thinRuntimeWith (some [mountBase])) rfl rfl rfl (Or.inr (by decide))

/-- C3. With no memoized delegate, a Dataset read that reports NotFound, a
successful ThinRuntime read whose `Status.Mounts` has exactly one entry, and a
successful runtime-info lookup for that entry's (name, namespace): the call
returns the looked-up descriptor with a nil error. -/
theorem getMountedRuntimeInfo_status_one_mount (c : Client) (e : ReferenceDatasetEngine)
    (resource : String) (runtime : ThinRuntime) (m : Mount) (info : RuntimeInfo)
    (hmemo : e.mountedRuntimeInfo = none)
    (hdataset : c.getDataset e.name e.Namespace = Except.error (Err.notFound resource))
    (hruntime : c.getThinRuntime e.name e.Namespace = Except.ok runtime)
    (hmounts : runtime.statusMounts = some [m])
    (hinfo : c.getRuntimeInfo m.name m.Namespace = Except.ok info) :
    getMountedRuntimeInfo c e =
      { val := some info, err := none,
        engine := { e with mountedRuntimeInfo := some info },
        fetches := [Fetch.dataset e.name e.Namespace, Fetch.thinRuntime e.name e.Namespace,
                    Fetch.runtimeInfo m.name m.Namespace] } := by
  simp [getMountedRuntimeInfo, hmemo, GetDataset, hdataset, IgnoreNotFound, getRuntime,
    hruntime, hmounts, GetMountedDatasetNamespacedName, GetRuntimeInfo, hinfo]

/-- Scenario D of the specification, an instance of C3: the Dataset is deleted
and the ThinRuntime's `Status.Mounts` records `base` of `ns`. -/
theorem getMountedRuntimeInfo_status_one_mount_witness :
    getMountedRuntimeInfo
        (clusterOf (Except.error (Err.notFound "D"))
          (Except.ok (thinRuntimeWith (some [mountBase]))) (Except.ok infoBase)) engineD =
      { val := some infoBase, err := none,
        engine := { engineD with mountedRuntimeInfo := some infoBase },
        fetches := [Fetch.dataset "D" "ns", Fetch.thinRuntime "D" "ns",
                    Fetch.runtimeInfo "base" "ns"] } :=
  getMountedRuntimeInfo_status_one_mount _ engineD "D" (thinRuntimeWith (some [mountBase]))
    mountBase infoBase rfl rfl rfl rfl rfl

/-- Every call either returns a descriptor with a nil error, which is then the
content of the memo field, or returns a nil descriptor and leaves the receiver,
whose memo field was unset, as it was. -/
theorem getMountedRuntimeInfo_outcome (c : Client) (e : ReferenceDatasetEngine) :
    (∃ info, (getMountedRuntimeInfo c e).val = some info ∧
        (getMountedRuntimeInfo c e).err = none ∧
        (getMountedRuntimeInfo c e).engine.mountedRuntimeInfo = some info) ∨
      ((getMountedRuntimeInfo c e).val = none ∧ (getMountedRuntimeInfo c e).engine = e ∧
        e.mountedRuntimeInfo = none) := by
  cases hmemo : e.mountedRuntimeInfo with
  | some memo => left; exact ⟨memo, by simp [getMountedRuntimeInfo, hmemo]⟩
  | none =>
    cases hdataset : c.getDataset e.name e.Namespace with
    | error err =>
      cases err with
      | failure msg =>
        right
        simp [getMountedRuntimeInfo, hmemo, GetDataset, hdataset, IgnoreNotFound]
      | notFound resource =>
        cases hruntime : c.getThinRuntime e.name e.Namespace with
        | error err =>
          right
          simp [getMountedRuntimeInfo, hmemo, GetDataset, hdataset, IgnoreNotFound,
            getRuntime, hruntime]
        | ok runtime =>
          cases hmounts : runtime.statusMounts with
          | none =>
            right
            simp [getMountedRuntimeInfo, hmemo, GetDataset, hdataset, IgnoreNotFound,
              getRuntime, hruntime, hmounts]
          | some mounts =>
            match mounts, hmounts with
            | [], hmounts =>
              right
              simp [getMountedRuntimeInfo, hmemo, GetDataset, hdataset, IgnoreNotFound,
                getRuntime, hruntime, hmounts]
            | [m], hmounts =>
              cases hinfo : c.getRuntimeInfo m.name m.Namespace with
              | error err =>
                right
                simp [getMountedRuntimeInfo, hmemo, GetDataset, hdataset, IgnoreNotFound,
                  getRuntime, hruntime, hmounts, GetMountedDatasetNamespacedName,
                  GetRuntimeInfo, hinfo]
              | ok info =>
                left
                simp [getMountedRuntimeInfo, hmemo, GetDataset, hdataset, IgnoreNotFound,
                  getRuntime, hruntime, hmounts, GetMountedDatasetNamespacedName,
                  GetRuntimeInfo, hinfo]
            | _ :: _ :: _, hmounts =>
              right
              simp [getMountedRuntimeInfo, hmemo, GetDataset, hdataset, IgnoreNotFound,
                getRuntime, hruntime, hmounts, GetMountedDatasetNamespacedName]
    | ok dataset =>
      cases hruntime : c.getThinRuntime e.name e.Namespace with
      | error err =>
        right
        simp [getMountedRuntimeInfo, hmemo, GetDataset, hdataset, IgnoreNotFound,
          getRuntime, hruntime]
      | ok runtime =>
        match hmounts : dataset.mounts with
        | [] =>
          right
          simp [getMountedRuntimeInfo, hmemo, GetDataset, hdataset, IgnoreNotFound,
            getRuntime, hruntime, hmounts, GetMountedDatasetNamespacedName]
        | [m] =>
          cases hinfo : c.getRuntimeInfo m.name m.Namespace with
          | error err =>
            right
            simp [getMountedRuntimeInfo, hmemo, GetDataset, hdataset, IgnoreNotFound,
              getRuntime, hruntime, hmounts, GetMountedDatasetNamespacedName,
              GetRuntimeInfo, hinfo]
          | ok info =>
            left
            simp [getMountedRuntimeInfo, hmemo, GetDataset, hdataset, IgnoreNotFound,
              getRuntime, hruntime, hmounts, GetMountedDatasetNamespacedName,
              GetRuntimeInfo, hinfo]
        | _ :: _ :: _ =>
          right
          simp [getMountedRuntimeInfo, hmemo, GetDataset, hdataset, IgnoreNotFound,
            getRuntime, hruntime, hmounts, GetMountedDatasetNamespacedName]

/-- A call on an engine without memoized delegate, against a cluster where the
Dataset is NotFound and the ThinRuntime has no `Status.Mounts`. -/
theorem getMountedRuntimeInfo_absent (c : Client) (e : ReferenceDatasetEngine)
    (resource : String) (runtime : ThinRuntime)
    (hmemo : e.mountedRuntimeInfo = none)
    (hdataset : c.getDataset e.name e.Namespace = Except.error (Err.notFound resource))
    (hruntime : c.getThinRuntime e.name e.Namespace = Except.ok runtime)
    (hmounts : runtime.statusMounts = none ∨ runtime.statusMounts = some []) :
    getMountedRuntimeInfo c e =
      { val := none, err := none, engine := e,
        fetches := [Fetch.dataset e.name e.Namespace,
                    Fetch.thinRuntime e.name e.Namespace] } := by
  rcases hmounts with h | h <;>
    simp [getMountedRuntimeInfo, hmemo, GetDataset, hdataset, IgnoreNotFound, getRuntime,
      hruntime, h]

/-- C4. With no memoized delegate, a Dataset read that reports NotFound and a
successful ThinRuntime read whose `Status.Mounts` is nil or empty: the call
returns a nil descriptor with a nil error, and so does the call that follows any
number `n` of earlier calls against the same cluster state; each of them reads
the Dataset and the ThinRuntime and leaves the receiver as it was. -/
theorem getMountedRuntimeInfo_absent_repeated (c : Client) (e : ReferenceDatasetEngine)
    (resource : String) (runtime : ThinRuntime) (n : Nat)
    (hmemo : e.mountedRuntimeInfo = none)
    (hdataset : c.getDataset e.name e.Namespace = Except.error (Err.notFound resource))
    (hruntime : c.getThinRuntime e.name e.Namespace = Except.ok runtime)
    (hmounts : runtime.statusMounts = none ∨ runtime.statusMounts = some []) :
    getMountedRuntimeInfo c (engineAfter getMountedRuntimeInfo (List.replicate n c) e) =
      { val := none, err := none, engine := e,
        fetches := [Fetch.dataset e.name e.Namespace,
                    Fetch.thinRuntime e.name e.Namespace] } := by
  have hstep := getMountedRuntimeInfo_absent c e resource runtime hmemo hdataset hruntime hmounts
  have hfix : ∀ k : Nat, engineAfter getMountedRuntimeInfo (List.replicate k c) e = e := by
    intro k
    induction k with
    | zero => rfl
    | succ k ih => simp only [List.replicate_succ, engineAfter, hstep, ih]
  rw [hfix n, hstep]

/-- Scenario C of the specification, an instance of C4: the Dataset is deleted,
`Status.Mounts` is empty, and the call is the fourth against that state. -/
theorem getMountedRuntimeInfo_absent_repeated_witness :
    getMountedRuntimeInfo
        (clusterOf (Except.error (Err.notFound "D")) (Except.ok (thinRuntimeWith (some [])))
          (Except.ok infoBase))
        (engineAfter getMountedRuntimeInfo
          (List.replicate 3
            (clusterOf (Except.error (Err.notFound "D"))
              (Except.ok (thinRuntimeWith (some []))) (Except.ok infoBase)))
          engineD) =
      { val := none, err := none, engine := engineD,
        fetches := [Fetch.dataset "D" "ns", Fetch.thinRuntime "D" "ns"] } :=
  getMountedRuntimeInfo_absent_repeated _ engineD "D" (thinRuntimeWith (some [])) 3
    rfl rfl rfl (Or.inr rfl)

/-- A call on an engine whose delegate is memoized returns the memo, reads
nothing and leaves the receiver as it was. -/
theorem getMountedRuntimeInfo_memo (c : Client) (e : ReferenceDatasetEngine)
    (info : RuntimeInfo) (hmemo : e.mountedRuntimeInfo = some info) :
    getMountedRuntimeInfo c e = { val := some info, err := none, engine := e, fetches := [] } := by
  simp [getMountedRuntimeInfo, hmemo]

/-- On an engine without memoized delegate, the call returns (nil, nil) exactly
when the Dataset read reports NotFound and the ThinRuntime is read with a nil or
empty `Status.Mounts`. -/
theorem getMountedRuntimeInfo_absent_iff (c : Client) (e : ReferenceDatasetEngine)
    (hmemo : e.mountedRuntimeInfo = none) :
    ((getMountedRuntimeInfo c e).val = none ∧ (getMountedRuntimeInfo c e).err = none) ↔
      ((∃ resource, c.getDataset e.name e.Namespace = Except.error (Err.notFound resource)) ∧
        ∃ runtime, c.getThinRuntime e.name e.Namespace = Except.ok runtime ∧
          (runtime.statusMounts = none ∨ runtime.statusMounts = some [])) := by
  cases hdataset : c.getDataset e.name e.Namespace with
  | error err =>
    cases err with
    | failure msg =>
      simp [getMountedRuntimeInfo, hmemo, GetDataset, hdataset, IgnoreNotFound]
    | notFound resource =>
      cases hruntime : c.getThinRuntime e.name e.Namespace with
      | error err =>
        simp [getMountedRuntimeInfo, hmemo, GetDataset, hdataset, IgnoreNotFound,
          getRuntime, hruntime]
      | ok runtime =>
        cases hmounts : runtime.statusMounts with
        | none =>
          simp [getMountedRuntimeInfo, hmemo, GetDataset, hdataset, IgnoreNotFound,
            getRuntime, hruntime, hmounts]
        | some mounts =>
          match mounts, hmounts with
          | [], hmounts =>
            simp [getMountedRuntimeInfo, hmemo, GetDataset, hdataset, IgnoreNotFound,
              getRuntime, hruntime, hmounts]
          | [m], hmounts =>
            cases hinfo : c.getRuntimeInfo m.name m.Namespace <;>
              simp [getMountedRuntimeInfo, hmemo, GetDataset, hdataset, IgnoreNotFound,
                getRuntime, hruntime, hmounts, GetMountedDatasetNamespacedName,
                GetRuntimeInfo, hinfo]
          | _ :: _ :: _, hmounts =>
            simp [getMountedRuntimeInfo, hmemo, GetDataset, hdataset, IgnoreNotFound,
              getRuntime, hruntime, hmounts, GetMountedDatasetNamespacedName]
  | ok dataset =>
    cases hruntime : c.getThinRuntime e.name e.Namespace with
    | error err =>
      simp [getMountedRuntimeInfo, hmemo, GetDataset, hdataset, IgnoreNotFound,
        getRuntime, hruntime]
    | ok runtime =>
      match hmounts : dataset.mounts with
      | [] =>
        simp [getMountedRuntimeInfo, hmemo, GetDataset, hdataset, IgnoreNotFound,
          getRuntime, hruntime, hmounts, GetMountedDatasetNamespacedName]
      | [m] =>
        cases hinfo : c.getRuntimeInfo m.name m.Namespace <;>
          simp [getMountedRuntimeInfo, hmemo, GetDataset, hdataset, IgnoreNotFound,
            getRuntime, hruntime, hmounts, GetMountedDatasetNamespacedName,
            GetRuntimeInfo, hinfo]
      | _ :: _ :: _ =>
        simp [getMountedRuntimeInfo, hmemo, GetDataset, hdataset, IgnoreNotFound,
          getRuntime, hruntime, hmounts, GetMountedDatasetNamespacedName]

/-- On an engine without memoized delegate the first read of a call is the
Dataset read, so the call reads the cluster at least once. -/
theorem getMountedRuntimeInfo_fetches_ne_nil (c : Client) (e : ReferenceDatasetEngine)
    (hmemo : e.mountedRuntimeInfo = none) : (getMountedRuntimeInfo c e).fetches ≠ [] := by
  unfold getMountedRuntimeInfo
  simp only [hmemo, Option.isSome_none, Bool.false_eq_true, if_false]
  repeat' split
  all_goals simp

/-- After any later calls, an engine whose delegate is memoized is unchanged. -/
theorem engineAfter_getMountedRuntimeInfo_memo (later : List Client)
    (e : ReferenceDatasetEngine) (info : RuntimeInfo)
    (hmemo : e.mountedRuntimeInfo = some info) :
    engineAfter getMountedRuntimeInfo later e = e := by
  induction later with
  | nil => rfl
  | cons c cs ih => simp only [engineAfter, getMountedRuntimeInfo_memo c e info hmemo, ih]

/-- C7, against the claim as written: the engine `D` first resolves while the
Dataset is deleted and `Status.Mounts` is nil, and gets (nil, nil); the Dataset
then appears with the mount `base`, and the next call on the same instance
reads the cluster three times and returns the descriptor of `base`, not
(nil, nil). -/
theorem getMountedRuntimeInfo_absent_not_sticky :
    (getMountedRuntimeInfo
        (clusterOf (Except.error (Err.notFound "D")) (Except.ok (thinRuntimeWith none))
          (Except.ok infoBase)) engineD).val = none ∧
    (getMountedRuntimeInfo
        (clusterOf (Except.error (Err.notFound "D")) (Except.ok (thinRuntimeWith none))
          (Except.ok infoBase)) engineD).err = none ∧
    getMountedRuntimeInfo
        (clusterOf (Except.ok { mounts := [mountBase], exclusive := false })
          (Except.ok (thinRuntimeWith none)) (Except.ok infoBase))
        (getMountedRuntimeInfo
          (clusterOf (Except.error (Err.notFound "D")) (Except.ok (thinRuntimeWith none))
            (Except.ok infoBase)) engineD).engine =
      { val := some infoBase, err := none,
        engine := { engineD with mountedRuntimeInfo := some infoBase },
        fetches := [Fetch.dataset "D" "ns", Fetch.thinRuntime "D" "ns",
                    Fetch.runtimeInfo "base" "ns"] } := by
  refine ⟨rfl, rfl, rfl⟩

/-- C7, as amended.  After a call that returned a nil error:
a returned descriptor is memoized, and every later call on the instance, after
any number of other later calls and against any cluster state, returns that
descriptor with a nil error, reads nothing and leaves the instance as it is;
a returned nil is not memoized: the instance is as before the call with its
memo unset, and a later call reads the cluster again and returns (nil, nil)
exactly when the state it runs against has the Dataset NotFound and a readable
ThinRuntime whose `Status.Mounts` is nil or empty. -/
theorem getMountedRuntimeInfo_resolved_sticky (c : Client) (e : ReferenceDatasetEngine) :
    (∀ info, (getMountedRuntimeInfo c e).val = some info →
      (getMountedRuntimeInfo c e).err = none →
      ∀ (later : List Client) (c' : Client),
        getMountedRuntimeInfo c'
            (engineAfter getMountedRuntimeInfo later (getMountedRuntimeInfo c e).engine) =
          { val := some info, err := none, engine := (getMountedRuntimeInfo c e).engine,
            fetches := [] }) ∧
    ((getMountedRuntimeInfo c e).val = none → (getMountedRuntimeInfo c e).err = none →
      (getMountedRuntimeInfo c e).engine = e ∧ e.mountedRuntimeInfo = none ∧
      ∀ c' : Client,
        (getMountedRuntimeInfo c' (getMountedRuntimeInfo c e).engine).fetches ≠ [] ∧
        (((getMountedRuntimeInfo c' (getMountedRuntimeInfo c e).engine).val = none ∧
            (getMountedRuntimeInfo c' (getMountedRuntimeInfo c e).engine).err = none) ↔
          ((∃ resource,
              c'.getDataset e.name e.Namespace = Except.error (Err.notFound resource)) ∧
            ∃ runtime, c'.getThinRuntime e.name e.Namespace = Except.ok runtime ∧
              (runtime.statusMounts = none ∨ runtime.statusMounts = some [])))) := by
  constructor
  · intro info hval _ later c'
    have hstored : (getMountedRuntimeInfo c e).engine.mountedRuntimeInfo = some info := by
      rcases getMountedRuntimeInfo_outcome c e with ⟨info', h1, _, h3⟩ | ⟨h1, _, _⟩
      · rw [h1] at hval
        rw [h3, hval]
      · rw [h1] at hval
        cases hval
    rw [engineAfter_getMountedRuntimeInfo_memo later _ info hstored,
      getMountedRuntimeInfo_memo c' _ info hstored]
  · intro hval _
    have hsame : (getMountedRuntimeInfo c e).engine = e ∧ e.mountedRuntimeInfo = none := by
      rcases getMountedRuntimeInfo_outcome c e with ⟨info', h1, _, _⟩ | ⟨_, h2, h3⟩
      · rw [h1] at hval
        cases hval
      · exact ⟨h2, h3⟩
    refine ⟨hsame.1, hsame.2, fun c' => ?_⟩
    rw [hsame.1]
    exact ⟨getMountedRuntimeInfo_fetches_ne_nil c' e hsame.2,
      getMountedRuntimeInfo_absent_iff c' e hsame.2⟩

/-- An instance of the amended C7: the engine `D` resolves `base` through the
Dataset's single mount; two later calls run while the Dataset is deleted, and a
third, against a state where every read fails, still returns `base` and reads
nothing. -/
theorem getMountedRuntimeInfo_resolved_sticky_witness :
    getMountedRuntimeInfo
        (clusterOf (Except.error (Err.failure "timeout")) (Except.error (Err.failure "timeout"))
          (Except.error (Err.failure "timeout")))
        (engineAfter getMountedRuntimeInfo
          [clusterOf (Except.error (Err.notFound "D")) (Except.ok (thinRuntimeWith none))
             (Except.ok infoBase),
           clusterOf (Except.error (Err.notFound "D")) (Except.ok (thinRuntimeWith none))
             (Except.ok infoBase)]
          (getMountedRuntimeInfo
            (clusterOf (Except.ok { mounts := [mountBase], exclusive := false })
              (Except.ok (thinRuntimeWith none)) (Except.ok infoBase)) engineD).engine) =
      { val := some infoBase, err := none,
        engine := (getMountedRuntimeInfo
            (clusterOf (Except.ok { mounts := [mountBase], exclusive := false })
              (Except.ok (thinRuntimeWith none)) (Except.ok infoBase)) engineD).engine,
        fetches := [] } :=
  (getMountedRuntimeInfo_resolved_sticky
    (clusterOf (Except.ok { mounts := [mountBase], exclusive := false })
      (Except.ok (thinRuntimeWith none)) (Except.ok infoBase)) engineD).1 infoBase rfl rfl _ _

/-- C8. With no memoized delegate, a failed read is returned as it is and nothing
is memoized:
(a) a Dataset read failing with an error other than NotFound is returned at once,
the only read being that of the Dataset;
(b) when the Dataset read succeeds or reports NotFound, a failing ThinRuntime
read returns its error, NotFound included;
(c) when the mounts of the Dataset, or, the Dataset being NotFound, the non-empty
`Status.Mounts`, give a single candidate, a failing runtime-info lookup for that
candidate returns its error;
(d) whenever the call returns an error, the descriptor is nil and the receiver,
memo unset, is as before the call, so a later call resolves again. -/
theorem getMountedRuntimeInfo_errors_unchanged (c : Client) (e : ReferenceDatasetEngine)
    (hmemo : e.mountedRuntimeInfo = none) :
    (∀ err, (∀ resource, err ≠ Err.notFound resource) →
      c.getDataset e.name e.Namespace = Except.error err →
      getMountedRuntimeInfo c e =
        { val := none, err := some err, engine := e,
          fetches := [Fetch.dataset e.name e.Namespace] }) ∧
    (∀ err,
      ((∃ dataset, c.getDataset e.name e.Namespace = Except.ok dataset) ∨
        (∃ resource, c.getDataset e.name e.Namespace = Except.error (Err.notFound resource))) →
      c.getThinRuntime e.name e.Namespace = Except.error err →
      getMountedRuntimeInfo c e =
        { val := none, err := some err, engine := e,
          fetches := [Fetch.dataset e.name e.Namespace,
                      Fetch.thinRuntime e.name e.Namespace] }) ∧
    (∀ err runtime candidate,
      c.getThinRuntime e.name e.Namespace = Except.ok runtime →
      ((∃ dataset, c.getDataset e.name e.Namespace = Except.ok dataset ∧
          GetMountedDatasetNamespacedName dataset.mounts = [candidate]) ∨
        ((∃ resource, c.getDataset e.name e.Namespace = Except.error (Err.notFound resource)) ∧
          ∃ mounts, runtime.statusMounts = some mounts ∧ mounts ≠ [] ∧
            GetMountedDatasetNamespacedName mounts = [candidate])) →
      c.getRuntimeInfo candidate.Name candidate.Namespace = Except.error err →
      getMountedRuntimeInfo c e =
        { val := none, err := some err, engine := e,
          fetches := [Fetch.dataset e.name e.Namespace, Fetch.thinRuntime e.name e.Namespace,
                      Fetch.runtimeInfo candidate.Name candidate.Namespace] }) ∧
    (∀ err, (getMountedRuntimeInfo c e).err = some err →
      (getMountedRuntimeInfo c e).val = none ∧ (getMountedRuntimeInfo c e).engine = e ∧
        (getMountedRuntimeInfo c e).engine.mountedRuntimeInfo = none) := by
  refine ⟨?_, ?_, ?_, ?_⟩
  · intro err hne hdataset
    cases err with
    | notFound resource => exact absurd rfl (hne resource)
    | failure msg =>
      simp [getMountedRuntimeInfo, hmemo, GetDataset, hdataset, IgnoreNotFound]
  · intro err hdataset hruntime
    rcases hdataset with ⟨dataset, hdataset⟩ | ⟨resource, hdataset⟩ <;>
      simp [getMountedRuntimeInfo, hmemo, GetDataset, hdataset, IgnoreNotFound, getRuntime,
        hruntime]
  · intro err runtime candidate hruntime hcandidate hinfo
    rcases hcandidate with ⟨dataset, hdataset, hone⟩ |
        ⟨⟨resource, hdataset⟩, mounts, hmounts, hne, hone⟩
    · simp [getMountedRuntimeInfo, hmemo, GetDataset, hdataset, IgnoreNotFound, getRuntime,
        hruntime, hone, GetRuntimeInfo, hinfo]
    · simp [getMountedRuntimeInfo, hmemo, GetDataset, hdataset, IgnoreNotFound, getRuntime,
        hruntime, hmounts, hne, hone, GetRuntimeInfo, hinfo]
  · intro err herr
    rcases getMountedRuntimeInfo_outcome c e with ⟨info, _, h2, _⟩ | ⟨h1, h2, _⟩
    · rw [h2] at herr
      cases herr
    · exact ⟨h1, h2, by rw [h2]; exact hmemo⟩

/-- Instances of C8 on the engine `D`: the Dataset read times out; the Dataset is
NotFound and the ThinRuntime is NotFound too; the Dataset mounts `base`, whose
runtime-info lookup is forbidden. -/
theorem getMountedRuntimeInfo_errors_unchanged_witness :
    getMountedRuntimeInfo
        (clusterOf (Except.error (Err.failure "timeout")) (Except.ok (thinRuntimeWith none))
          (Except.ok infoBase)) engineD =
      { val := none, err := some (Err.failure "timeout"), engine := engineD,
        fetches := [Fetch.dataset "D" "ns"] } ∧
    getMountedRuntimeInfo
        (clusterOf (Except.error (Err.notFound "D")) (Except.error (Err.notFound "D"))
          (Except.ok infoBase)) engineD =
      { val := none, err := some (Err.notFound "D"), engine := engineD,
        fetches := [Fetch.dataset "D" "ns", Fetch.thinRuntime "D" "ns"] } ∧
    getMountedRuntimeInfo
        (clusterOf (Except.ok { mounts := [mountBase], exclusive := false })
          (Except.ok (thinRuntimeWith none)) (Except.error (Err.failure "forbidden")))
        engineD =
      { val := none, err := some (Err.failure "forbidden"), engine := engineD,
        fetches := [Fetch.dataset "D" "ns", Fetch.thinRuntime "D" "ns",
                    Fetch.runtimeInfo "base" "ns"] } :=
  ⟨(getMountedRuntimeInfo_errors_unchanged _ engineD rfl).1 (Err.failure "timeout")
      (fun _ h => Err.noConfusion h) rfl,
    (getMountedRuntimeInfo_errors_unchanged _ engineD rfl).2.1 (Err.notFound "D")
      (Or.inr ⟨"D", rfl⟩) rfl,
    (getMountedRuntimeInfo_errors_unchanged _ engineD rfl).2.2.1 (Err.failure "forbidden")
      (thinRuntimeWith none) { Name := "base", Namespace := "ns" } rfl
      (Or.inl ⟨{ mounts := [mountBase], exclusive := false }, rfl, rfl⟩) rfl⟩

/-! ## Delegate status: `getMountedDatasetRuntimeStatus` -/

/-- C5. For every engine and cluster state:
the status call returns (nil, nil) exactly when the resolver returns (nil, nil);
when the resolver returns an error, the status call returns a nil status with
that error and reads nothing beyond the resolver's reads;
when the resolver returns a descriptor, the status call returns the pair of the
status lookup keyed by the descriptor's runtime type, name and namespace, which
is its one read after the resolver's. -/
theorem getMountedDatasetRuntimeStatus_spec (c : Client) (e : ReferenceDatasetEngine) :
    (((getMountedDatasetRuntimeStatus c e).val = none ∧
        (getMountedDatasetRuntimeStatus c e).err = none) ↔
      ((getMountedRuntimeInfo c e).val = none ∧ (getMountedRuntimeInfo c e).err = none)) ∧
    (∀ err, (getMountedRuntimeInfo c e).err = some err →
      getMountedDatasetRuntimeStatus c e =
        { val := none, err := some err, engine := (getMountedRuntimeInfo c e).engine,
          fetches := (getMountedRuntimeInfo c e).fetches }) ∧
    (∀ info, (getMountedRuntimeInfo c e).val = some info →
      (getMountedRuntimeInfo c e).err = none →
      getMountedDatasetRuntimeStatus c e =
        { val := (GetRuntimeStatus c info.runtimeType info.name info.Namespace).1,
          err := (GetRuntimeStatus c info.runtimeType info.name info.Namespace).2,
          engine := (getMountedRuntimeInfo c e).engine,
          fetches := (getMountedRuntimeInfo c e).fetches ++
            [Fetch.runtimeStatus info.runtimeType info.name info.Namespace] }) := by
  refine ⟨?_, ?_, ?_⟩
  · unfold getMountedDatasetRuntimeStatus
    generalize getMountedRuntimeInfo c e = r
    rcases r with ⟨val, err, engine, fetches⟩
    cases err with
    | some err => simp
    | none =>
      cases val with
      | none => simp
      | some info =>
        cases hstatus : c.getStatus info.runtimeType info.name info.Namespace <;>
          simp [GetRuntimeStatus, hstatus]
  · intro err herr
    simp [getMountedDatasetRuntimeStatus, herr]
  · intro info hval herr
    simp [getMountedDatasetRuntimeStatus, herr, hval]

/-- Scenario C of the specification and a resolved delegate, instances of C5 on
the engine `D`: with the Dataset deleted and no `Status.Mounts` the status call
returns (nil, nil); with the Dataset mounting `base` it returns the status read
for (`alluxio`, `base`, `ns`). -/
theorem getMountedDatasetRuntimeStatus_spec_witness :
    ((getMountedDatasetRuntimeStatus
        (clusterOf (Except.error (Err.notFound "D")) (Except.ok (thinRuntimeWith none))
          (Except.ok infoBase)) engineD).val = none ∧
      (getMountedDatasetRuntimeStatus
        (clusterOf (Except.error (Err.notFound "D")) (Except.ok (thinRuntimeWith none))
          (Except.ok infoBase)) engineD).err = none) ∧
    getMountedDatasetRuntimeStatus
        (clusterOf (Except.ok { mounts := [mountBase], exclusive := false })
          (Except.ok (thinRuntimeWith none)) (Except.ok infoBase)) engineD =
      { val := some { phase := "Ready" }, err := none,
        engine := { engineD with mountedRuntimeInfo := some infoBase },
        fetches := [Fetch.dataset "D" "ns", Fetch.thinRuntime "D" "ns",
                    Fetch.runtimeInfo "base" "ns",
                    Fetch.runtimeStatus "alluxio" "base" "ns"] } :=
  ⟨(getMountedDatasetRuntimeStatus_spec
      (clusterOf (Except.error (Err.notFound "D")) (Except.ok (thinRuntimeWith none))
        (Except.ok infoBase)) engineD).1.mpr ⟨rfl, rfl⟩,
    (getMountedDatasetRuntimeStatus_spec
      (clusterOf (Except.ok { mounts := [mountBase], exclusive := false })
        (Except.ok (thinRuntimeWith none)) (Except.ok infoBase)) engineD).2.2 infoBase rfl rfl⟩

/-! ## Own descriptor: `getRuntimeInfo` -/

/-- A call on an engine whose own descriptor is memoized returns the memo, reads
nothing and leaves the receiver as it was. -/
theorem getRuntimeInfo_memo (b : Base) (c : Client) (e : ReferenceDatasetEngine)
    (info : RuntimeInfo) (hmemo : e.runtimeInfo = some info) :
    getRuntimeInfo b c e = { val := some info, err := none, engine := e, fetches := [] } := by
  simp [getRuntimeInfo, hmemo]

/-- A descriptor returned by a call is the content of the memo field after it. -/
theorem getRuntimeInfo_stored (b : Base) (c : Client) (e : ReferenceDatasetEngine)
    (info : RuntimeInfo) (hval : (getRuntimeInfo b c e).val = some info) :
    (getRuntimeInfo b c e).engine.runtimeInfo = some info := by
  cases hmemo : e.runtimeInfo with
  | some memo =>
    rw [getRuntimeInfo_memo b c e memo hmemo] at hval ⊢
    simpa [hmemo] using hval
  | none =>
    revert hval
    cases hruntime : c.getThinRuntime e.name e.Namespace with
    | error err => simp [getRuntimeInfo, hmemo, getRuntime, hruntime]
    | ok runtime =>
      cases hbuild : b.BuildRuntimeInfo e.name e.Namespace e.runtimeType runtime.tieredStore
          (b.GetMetadataListFromAnnotation runtime) with
      | error err => simp [getRuntimeInfo, hmemo, getRuntime, hruntime, hbuild]
      | ok built =>
        cases hdataset : c.getDataset e.name e.Namespace with
        | ok dataset =>
          simp [getRuntimeInfo, hmemo, getRuntime, hruntime, hbuild, GetDataset, hdataset]
        | error err =>
          cases err <;>
            simp [getRuntimeInfo, hmemo, getRuntime, hruntime, hbuild, GetDataset, hdataset,
              IgnoreNotFound]

/-- After any later calls, an engine whose own descriptor is memoized is unchanged. -/
theorem engineAfter_getRuntimeInfo_memo (b : Base) (later : List Client)
    (e : ReferenceDatasetEngine) (info : RuntimeInfo) (hmemo : e.runtimeInfo = some info) :
    engineAfter (getRuntimeInfo b) later e = e := by
  induction later with
  | nil => rfl
  | cons c cs ih => simp only [engineAfter, getRuntimeInfo_memo b c e info hmemo, ih]

/-- C6. When a call on an engine returned a descriptor with a nil error, every
later call on that engine, after any number of other later calls and against any
cluster state, returns the same descriptor with a nil error, reads nothing
(neither the ThinRuntime nor the Dataset) and leaves the engine as the first
call left it. -/
theorem getRuntimeInfo_idempotent (b : Base) (c : Client) (e : ReferenceDatasetEngine)
    (info : RuntimeInfo) :
    (getRuntimeInfo b c e).val = some info → (getRuntimeInfo b c e).err = none →
    ∀ (later : List Client) (c' : Client),
      getRuntimeInfo b c' (engineAfter (getRuntimeInfo b) later (getRuntimeInfo b c e).engine) =
        { val := some info, err := none, engine := (getRuntimeInfo b c e).engine,
          fetches := [] } := by
  intro hval _ later c'
  have hstored := getRuntimeInfo_stored b c e info hval
  rw [engineAfter_getRuntimeInfo_memo b later _ info hstored,
    getRuntimeInfo_memo b c' _ info hstored]

/-- An instance of C6: the engine `D` builds its descriptor while its Dataset,
which is exclusive, exists; one later call runs after the Dataset is deleted and
the next against a state where every read fails. -/
theorem getRuntimeInfo_idempotent_witness :
    getRuntimeInfo baseOk
        (clusterOf (Except.error (Err.failure "timeout")) (Except.error (Err.failure "timeout"))
          (Except.error (Err.failure "timeout")))
        (engineAfter (getRuntimeInfo baseOk)
          [clusterOf (Except.error (Err.notFound "D")) (Except.ok (thinRuntimeWith none))
             (Except.ok infoBase)]
          (getRuntimeInfo baseOk
            (clusterOf (Except.ok { mounts := [mountBase], exclusive := true })
              (Except.ok (thinRuntimeWith none)) (Except.ok infoBase)) engineD).engine) =
      { val := some (infoD.SetupWithDataset { mounts := [mountBase], exclusive := true }),
        err := none,
        engine := (getRuntimeInfo baseOk
            (clusterOf (Except.ok { mounts := [mountBase], exclusive := true })
              (Except.ok (thinRuntimeWith none)) (Except.ok infoBase)) engineD).engine,
        fetches := [] } :=
  getRuntimeInfo_idempotent baseOk
    (clusterOf (Except.ok { mounts := [mountBase], exclusive := true })
      (Except.ok (thinRuntimeWith none)) (Except.ok infoBase)) engineD
    (infoD.SetupWithDataset { mounts := [mountBase], exclusive := true }) rfl rfl _ _

/-- C9, what the code does where the claim fails.  With no memoized descriptor,
a readable ThinRuntime and a successful construction, a Dataset read failing with
an error other than NotFound makes the call return that error together with the
descriptor built so far, and leaves that descriptor in the memo field
`runtimeInfo`: every later call, whatever the builder and the cluster state,
returns it with a nil error and reads nothing. -/
theorem getRuntimeInfo_dataset_error_memoized (b : Base) (c : Client)
    (e : ReferenceDatasetEngine) (runtime : ThinRuntime) (built : RuntimeInfo) (err : Err)
    (hmemo : e.runtimeInfo = none)
    (hruntime : c.getThinRuntime e.name e.Namespace = Except.ok runtime)
    (hbuild : b.BuildRuntimeInfo e.name e.Namespace e.runtimeType runtime.tieredStore
        (b.GetMetadataListFromAnnotation runtime) = Except.ok built)
    (hdataset : c.getDataset e.name e.Namespace = Except.error err)
    (hne : ∀ resource, err ≠ Err.notFound resource) :
    getRuntimeInfo b c e =
      { val := some (built.SetupFuseDeployMode true runtime.fuseNodeSelector),
        err := some err,
        engine := { e with
          runtimeInfo := some (built.SetupFuseDeployMode true runtime.fuseNodeSelector) },
        fetches := [Fetch.thinRuntime e.name e.Namespace, Fetch.dataset e.name e.Namespace] } ∧
    ∀ (b' : Base) (c' : Client),
      getRuntimeInfo b' c' (getRuntimeInfo b c e).engine =
        { val := some (built.SetupFuseDeployMode true runtime.fuseNodeSelector),
          err := none, engine := (getRuntimeInfo b c e).engine, fetches := [] } := by
  have hcall : getRuntimeInfo b c e =
      { val := some (built.SetupFuseDeployMode true runtime.fuseNodeSelector),
        err := some err,
        engine := { e with
          runtimeInfo := some (built.SetupFuseDeployMode true runtime.fuseNodeSelector) },
        fetches := [Fetch.thinRuntime e.name e.Namespace,
                    Fetch.dataset e.name e.Namespace] } := by
    cases err with
    | notFound resource => exact absurd rfl (hne resource)
    | failure msg =>
      simp [getRuntimeInfo, hmemo, getRuntime, hruntime, hbuild, GetDataset, hdataset,
        IgnoreNotFound]
  refine ⟨hcall, fun b' c' => ?_⟩
  rw [hcall]
  exact getRuntimeInfo_memo b' c' _ _ rfl

/-- The failing input of C9: on the engine `D` the Dataset read times out
after the descriptor was built; the call returns the timeout, and the next call,
against a cluster where the exclusive Dataset is readable, returns the
non-exclusive descriptor with a nil error without reading anything. -/
theorem getRuntimeInfo_dataset_error_memoized_witness :
    getRuntimeInfo baseOk
        (clusterOf (Except.error (Err.failure "timeout")) (Except.ok (thinRuntimeWith none))
          (Except.ok infoBase)) engineD =
      { val := some infoD, err := some (Err.failure "timeout"),
        engine := { engineD with runtimeInfo := some infoD },
        fetches := [Fetch.thinRuntime "D" "ns", Fetch.dataset "D" "ns"] } ∧
    getRuntimeInfo baseOk
        (clusterOf (Except.ok { mounts := [mountBase], exclusive := true })
          (Except.ok (thinRuntimeWith none)) (Except.ok infoBase))
        (getRuntimeInfo baseOk
          (clusterOf (Except.error (Err.failure "timeout")) (Except.ok (thinRuntimeWith none))
            (Except.ok infoBase)) engineD).engine =
      { val := some infoD, err := none,
        engine := (getRuntimeInfo baseOk
          (clusterOf (Except.error (Err.failure "timeout")) (Except.ok (thinRuntimeWith none))
            (Except.ok infoBase)) engineD).engine,
        fetches := [] } :=
  ⟨(getRuntimeInfo_dataset_error_memoized baseOk
      (clusterOf (Except.error (Err.failure "timeout")) (Except.ok (thinRuntimeWith none))
        (Except.ok infoBase)) engineD (thinRuntimeWith none)
      { infoD with fuse := { global := false, nodeSelector := [] } } (Err.failure "timeout")
      rfl rfl rfl rfl (fun _ h => Err.noConfusion h)).1,
    (getRuntimeInfo_dataset_error_memoized baseOk
      (clusterOf (Except.error (Err.failure "timeout")) (Except.ok (thinRuntimeWith none))
        (Except.ok infoBase)) engineD (thinRuntimeWith none)
      { infoD with fuse := { global := false, nodeSelector := [] } } (Err.failure "timeout")
      rfl rfl rfl rfl (fun _ h => Err.noConfusion h)).2 baseOk _⟩

/-- C10. With no memoized descriptor, a readable ThinRuntime and a successful
construction giving `built`:
the call returns an error exactly when the Dataset read fails with an error
other than NotFound, and the error it then returns is that of the Dataset read,
together with the descriptor after the fuse step;
when the Dataset read reports NotFound, the call returns with a nil error the
descriptor `built` after the fuse step alone, whose fuse deploy mode is global
with the ThinRuntime's fuse node selector and whose exclusivity is the one
`built` came with (the Dataset step is not applied);
when the Dataset is read, the call returns with a nil error that descriptor
after the Dataset step, whose exclusivity is the Dataset's and whose fuse
placement is unchanged. -/
theorem getRuntimeInfo_dataset_cases (b : Base) (c : Client) (e : ReferenceDatasetEngine)
    (runtime : ThinRuntime) (built : RuntimeInfo)
    (hmemo : e.runtimeInfo = none)
    (hruntime : c.getThinRuntime e.name e.Namespace = Except.ok runtime)
    (hbuild : b.BuildRuntimeInfo e.name e.Namespace e.runtimeType runtime.tieredStore
        (b.GetMetadataListFromAnnotation runtime) = Except.ok built) :
    ((getRuntimeInfo b c e).err ≠ none ↔
      ∃ err, c.getDataset e.name e.Namespace = Except.error err ∧
        ∀ resource, err ≠ Err.notFound resource) ∧
    (∀ err, c.getDataset e.name e.Namespace = Except.error err →
      (∀ resource, err ≠ Err.notFound resource) →
      getRuntimeInfo b c e =
        { val := some (built.SetupFuseDeployMode true runtime.fuseNodeSelector),
          err := some err,
          engine := { e with
            runtimeInfo := some (built.SetupFuseDeployMode true runtime.fuseNodeSelector) },
          fetches := [Fetch.thinRuntime e.name e.Namespace,
                      Fetch.dataset e.name e.Namespace] }) ∧
    (∀ resource, c.getDataset e.name e.Namespace = Except.error (Err.notFound resource) →
      getRuntimeInfo b c e =
        { val := some (built.SetupFuseDeployMode true runtime.fuseNodeSelector),
          err := none,
          engine := { e with
            runtimeInfo := some (built.SetupFuseDeployMode true runtime.fuseNodeSelector) },
          fetches := [Fetch.thinRuntime e.name e.Namespace,
                      Fetch.dataset e.name e.Namespace] } ∧
      (built.SetupFuseDeployMode true runtime.fuseNodeSelector).fuse =
        { global := true, nodeSelector := runtime.fuseNodeSelector } ∧
      (built.SetupFuseDeployMode true runtime.fuseNodeSelector).exclusive = built.exclusive) ∧
    (∀ dataset, c.getDataset e.name e.Namespace = Except.ok dataset →
      getRuntimeInfo b c e =
        { val := some ((built.SetupFuseDeployMode true runtime.fuseNodeSelector).SetupWithDataset
            dataset),
          err := none,
          engine := { e with
            runtimeInfo :=
              some ((built.SetupFuseDeployMode true runtime.fuseNodeSelector).SetupWithDataset
                dataset) },
          fetches := [Fetch.thinRuntime e.name e.Namespace,
                      Fetch.dataset e.name e.Namespace] } ∧
      ((built.SetupFuseDeployMode true runtime.fuseNodeSelector).SetupWithDataset dataset) =
        { built.SetupFuseDeployMode true runtime.fuseNodeSelector with
          exclusive := dataset.exclusive }) := by
  refine ⟨?_, ?_, ?_, ?_⟩
  · cases hdataset : c.getDataset e.name e.Namespace with
    | ok dataset =>
      simp [getRuntimeInfo, hmemo, getRuntime, hruntime, hbuild, GetDataset, hdataset]
    | error err =>
      cases err <;>
        simp [getRuntimeInfo, hmemo, getRuntime, hruntime, hbuild, GetDataset, hdataset,
          IgnoreNotFound]
  · intro err hdataset hne
    cases err with
    | notFound resource => exact absurd rfl (hne resource)
    | failure msg =>
      simp [getRuntimeInfo, hmemo, getRuntime, hruntime, hbuild, GetDataset, hdataset,
        IgnoreNotFound]
  · intro resource hdataset
    refine ⟨?_, rfl, rfl⟩
    simp [getRuntimeInfo, hmemo, getRuntime, hruntime, hbuild, GetDataset, hdataset,
      IgnoreNotFound]
  · intro dataset hdataset
    refine ⟨?_, rfl⟩
    simp [getRuntimeInfo, hmemo, getRuntime, hruntime, hbuild, GetDataset, hdataset]

/-- Instances of C10 on the engine `D`: the Dataset read is forbidden, the
Dataset is NotFound, and the Dataset exists and is exclusive. -/
theorem getRuntimeInfo_dataset_cases_witness :
    (getRuntimeInfo baseOk
        (clusterOf (Except.error (Err.failure "forbidden")) (Except.ok (thinRuntimeWith none))
          (Except.ok infoBase)) engineD).err ≠ none ∧
    getRuntimeInfo baseOk
        (clusterOf (Except.error (Err.failure "forbidden")) (Except.ok (thinRuntimeWith none))
          (Except.ok infoBase)) engineD =
      { val := some infoD, err := some (Err.failure "forbidden"),
        engine := { engineD with runtimeInfo := some infoD },
        fetches := [Fetch.thinRuntime "D" "ns", Fetch.dataset "D" "ns"] } ∧
    getRuntimeInfo baseOk
        (clusterOf (Except.error (Err.notFound "D")) (Except.ok (thinRuntimeWith none))
          (Except.ok infoBase)) engineD =
      { val := some infoD, err := none, engine := { engineD with runtimeInfo := some infoD },
        fetches := [Fetch.thinRuntime "D" "ns", Fetch.dataset "D" "ns"] } ∧
    getRuntimeInfo baseOk
        (clusterOf (Except.ok { mounts := [mountBase], exclusive := true })
          (Except.ok (thinRuntimeWith none)) (Except.ok infoBase)) engineD =
      { val := some { infoD with exclusive := true }, err := none,
        engine := { engineD with runtimeInfo := some { infoD with exclusive := true } },
        fetches := [Fetch.thinRuntime "D" "ns", Fetch.dataset "D" "ns"] } :=
  ⟨(getRuntimeInfo_dataset_cases baseOk
      (clusterOf (Except.error (Err.failure "forbidden")) (Except.ok (thinRuntimeWith none))
        (Except.ok infoBase)) engineD (thinRuntimeWith none)
      { infoD with fuse := { global := false, nodeSelector := [] } } rfl rfl rfl).1.mpr
      ⟨Err.failure "forbidden", rfl, fun _ h => Err.noConfusion h⟩,
    (getRuntimeInfo_dataset_cases baseOk
      (clusterOf (Except.error (Err.failure "forbidden")) (Except.ok (thinRuntimeWith none))
        (Except.ok infoBase)) engineD (thinRuntimeWith none)
      { infoD with fuse := { global := false, nodeSelector := [] } } rfl rfl rfl).2.1
      (Err.failure "forbidden") rfl (fun _ h => Err.noConfusion h),
    ((getRuntimeInfo_dataset_cases baseOk
      (clusterOf (Except.error (Err.notFound "D")) (Except.ok (thinRuntimeWith none))
        (Except.ok infoBase)) engineD (thinRuntimeWith none)
      { infoD with fuse := { global := false, nodeSelector := [] } } rfl rfl rfl).2.2.1
      "D" rfl).1,
    ((getRuntimeInfo_dataset_cases baseOk
      (clusterOf (Except.ok { mounts := [mountBase], exclusive := true })
        (Except.ok (thinRuntimeWith none)) (Except.ok infoBase)) engineD (thinRuntimeWith none)
      { infoD with fuse := { global := false, nodeSelector := [] } } rfl rfl rfl).2.2.2
      { mounts := [mountBase], exclusive := true } rfl).1⟩

end ReferenceDataset
